import Mathlib

/-!
Shallow embedding of the autoGrade grading core: the response parser,
content-hash cache and retrying grading client from src/grader.py, the
progress ledger from src/progress_manager.py, and the sequential batch
orchestration from src/autograde.py.  Python strings are modelled as
lists of characters; the LLM endpoint is modelled as an oracle giving,
for each attempt index, either an exception message or a reply text;
sleeps and ledger file writes are recorded as explicit traces.
-/

namespace AutoGrade

/-- Python text is modelled as a list of characters. -/
abbrev PyStr := List Char

/-- Python str.split with a single-character separator: splits at every
occurrence of the separator, keeping empty parts; the empty string yields
one empty part. -/
def pySplit (sep : Char) : PyStr → List PyStr
  | [] => [[]]
  | c :: cs =>
    match pySplit sep cs with
    | [] => [[]]
    | p :: ps => if c = sep then [] :: p :: ps else (c :: p) :: ps

/-- Python sep.join(parts) for a single-character separator. -/
def pyJoin (sep : Char) : List PyStr → PyStr
  | [] => []
  | [p] => p
  | p :: q :: ps => p ++ sep :: pyJoin sep (q :: ps)

/-- Python str.strip(): remove leading and trailing whitespace. -/
def pyStrip (s : PyStr) : PyStr :=
  ((s.dropWhile Char.isWhitespace).reverse.dropWhile Char.isWhitespace).reverse

/-- Python str.isdigit() on ASCII text: true iff the string is non-empty
and every character is a decimal digit. -/
def pyIsDigit (s : PyStr) : Bool :=
  !s.isEmpty && s.all Char.isDigit

/-- Python int() applied to a string of ASCII decimal digits. -/
def pyInt (s : PyStr) : Nat :=
  s.foldl (fun n c => 10 * n + (c.toNat - 48)) 0

/-- One grading result dictionary as produced by Grader in src/grader.py.
The optional raw_response key is an Option; the optional from_cache key is
modelled as a Bool that is false when the key is absent. -/
structure GradingRecord where
  student_id : PyStr
  score : Nat
  comment : PyStr
  success : Bool
  raw_response : Option PyStr := none
  from_cache : Bool := false
deriving Repr, DecidableEq

/-- Message prefix written by the parse-failure branch of
Grader._parse_response. -/
def formatErrPrefix : PyStr := "返回格式错误: ".data

/-- Grader._parse_response from src/grader.py: strip the reply, split on
the dash character, and accept when there are at least three parts and
the second part is a digit string; the comment is the remaining tail
rejoined with dashes so embedded dashes survive. -/
def parse_response (response : PyStr) (student_id : PyStr) : GradingRecord :=
  let result := pyStrip response
  let parts := pySplit '-' result
  if 3 ≤ parts.length ∧ pyIsDigit parts[1]! = true then
    { student_id := student_id
      score := pyInt parts[1]!
      comment := pyJoin '-' (parts.drop 2)
      success := true
      raw_response := some result }
  else
    { student_id := student_id
      score := 0
      comment := formatErrPrefix ++ result
      success := false
      raw_response := some result }

/-- The in-memory cache of Grader (self.cache): a mapping from content
fingerprints to grading records, modelled as an association list. -/
abbrev Cache := List (PyStr × GradingRecord)

/-- Dictionary lookup in the cache. -/
def Cache.find (c : Cache) (k : PyStr) : Option GradingRecord :=
  (List.find? (fun p => p.1 == k) c).map (fun p => p.2)

/-- Dictionary assignment in the cache, overwriting any prior entry. -/
def Cache.insert (c : Cache) (k : PyStr) (v : GradingRecord) : Cache :=
  (k, v) :: List.filter (fun p => p.1 != k) c

/-- The LLM endpoint as seen by one grade call: for each attempt index,
either an exception message (Except.error) or a reply text (Except.ok). -/
abbrev Endpoint := Nat → Except PyStr PyStr

/-- Message prefix of the record returned when the final retry attempt
raises. -/
def apiFailPrefix : PyStr := "API请求失败: ".data

/-- Message of the record returned after the retry loop body never ran. -/
def exhaustedMsg : PyStr := "评分失败，已达最大重试次数".data

/-- Outcome of one Grader.grade call: the returned record, the cache
after the call, the number of LLM requests issued, and the trace of
sleep durations between attempts. -/
structure GradeResult where
  record : GradingRecord
  cache : Cache
  calls : Nat
  sleeps : List Nat
deriving Repr, DecidableEq

/-- The retry loop of Grader.grade (for attempt in range(max_retries)).
The second numeric argument counts the iterations still to run including
the current one; the first is the attempt index passed to the endpoint.
On a reply the result is parsed, cached when use_cache holds, and
returned; on an exception the loop sleeps retry_delay and retries unless
this was the final attempt, in which case a failure record embedding the
exception text is returned. -/
def gradeLoop (endpoint : Endpoint) (student_id : PyStr) (use_cache : Bool)
    (content_hash : PyStr) (cache : Cache) (retry_delay : Nat) :
    Nat → Nat → GradeResult
  | _, 0 =>
    { record := { student_id := student_id, score := 0,
                  comment := exhaustedMsg, success := false }
      cache := cache, calls := 0, sleeps := [] }
  | attempt, remaining + 1 =>
    match endpoint attempt with
    | Except.ok response =>
      let result := parse_response response student_id
      let cache' := if use_cache then Cache.insert cache content_hash result else cache
      { record := result, cache := cache', calls := 1, sleeps := [] }
    | Except.error e =>
      if remaining = 0 then
        { record := { student_id := student_id, score := 0,
                      comment := apiFailPrefix ++ e, success := false }
          cache := cache, calls := 1, sleeps := [] }
      else
        let rest := gradeLoop endpoint student_id use_cache content_hash cache retry_delay
          (attempt + 1) remaining
        { record := rest.record, cache := rest.cache, calls := rest.calls + 1,
          sleeps := retry_delay :: rest.sleeps }

/-- Grader.grade from src/grader.py.  The md5 content fingerprint is
abstracted as the function fp (deterministic by construction); the
reference template only feeds the prompt, whose reply is supplied by the
endpoint oracle, so it does not appear.  On a cache hit with use_cache
set, a copy of the cached record with the student id substituted and
from_cache set is returned with no request issued; otherwise the retry
loop runs. -/
def grade (fp : PyStr → PyStr) (endpoint : Endpoint) (cache : Cache)
    (student_id submission_content : PyStr)
    (max_retries retry_delay : Nat) (use_cache : Bool) : GradeResult :=
  let content_hash := fp submission_content
  if use_cache then
    match Cache.find cache content_hash with
    | some r =>
      { record := { r with student_id := student_id, from_cache := true }
        cache := cache, calls := 0, sleeps := [] }
    | none => gradeLoop endpoint student_id use_cache content_hash cache retry_delay 0 max_retries
  else
    gradeLoop endpoint student_id use_cache content_hash cache retry_delay 0 max_retries

/-- One entry of the completed sequence of the progress ledger. -/
structure CompletedEntry where
  student_id : PyStr
  score : Nat
  comment : PyStr
  timestamp : PyStr
deriving Repr, DecidableEq

/-- One entry of the failed sequence of the progress ledger. -/
structure FailedEntry where
  student_id : PyStr
  error : PyStr
  timestamp : PyStr
deriving Repr, DecidableEq

/-- The in-memory ledger state of ProgressManager.progress_data from
src/progress_manager.py.  The statistics dictionary is modelled as an
association list; wall-clock timestamps are supplied by callers. -/
structure ProgressData where
  completed : List CompletedEntry
  failed : List FailedEntry
  in_progress : Option PyStr
  timestamp : Option PyStr
  session_id : Option PyStr
  statistics : List (PyStr × PyStr)
deriving Repr, DecidableEq

/-- ProgressManager._init_progress: the empty ledger. -/
def init_progress : ProgressData :=
  { completed := [], failed := [], in_progress := none,
    timestamp := none, session_id := none, statistics := [] }

/-- One write the ledger layer performs against the progress file.  The
source opens the target path directly in truncating write mode and dumps
the whole state (writeInPlace); a write through a temporary file followed
by an atomic rename would be writeTempThenRename. -/
inductive LedgerWrite where
  | writeInPlace (content : ProgressData)
  | writeTempThenRename (content : ProgressData)
deriving Repr, DecidableEq

/-- True exactly for the temporary-file-then-atomic-rename write. -/
def LedgerWrite.isAtomicRename : LedgerWrite → Bool
  | .writeInPlace _ => false
  | .writeTempThenRename _ => true

/-- ProgressManager.save_progress: stamp the state with the current time
and rewrite the whole progress file in place, synchronously. -/
def save_progress (now : PyStr) (p : ProgressData) : ProgressData × List LedgerWrite :=
  let p' := { p with timestamp := some now }
  (p', [LedgerWrite.writeInPlace p'])

/-- ProgressManager.mark_completed: append a completed entry built from
the record and persist. -/
def mark_completed (now student_id : PyStr) (result : GradingRecord) (p : ProgressData) :
    ProgressData × List LedgerWrite :=
  save_progress now
    { p with completed := p.completed ++
        [{ student_id := student_id, score := result.score,
           comment := result.comment, timestamp := now }] }

/-- ProgressManager.mark_failed: append a failed entry and persist. -/
def mark_failed (now student_id error : PyStr) (p : ProgressData) :
    ProgressData × List LedgerWrite :=
  save_progress now
    { p with failed := p.failed ++
        [{ student_id := student_id, error := error, timestamp := now }] }

/-- ProgressManager.mark_in_progress: record the dispatched student and
persist. -/
def mark_in_progress (now student_id : PyStr) (p : ProgressData) :
    ProgressData × List LedgerWrite :=
  save_progress now { p with in_progress := some student_id }

/-- ProgressManager.reset_failed: clear the failed sequence and persist. -/
def reset_failed (now : PyStr) (p : ProgressData) : ProgressData × List LedgerWrite :=
  save_progress now { p with failed := [] }

/-- ProgressManager.reset: reinitialize the whole ledger and persist. -/
def reset (now : PyStr) (_p : ProgressData) : ProgressData × List LedgerWrite :=
  save_progress now init_progress

/-- ProgressManager.get_completed_ids: the student ids of the completed
sequence (a set in the source; list membership is the same predicate). -/
def get_completed_ids (p : ProgressData) : List PyStr :=
  p.completed.map (fun e => e.student_id)

/-- ProgressManager.get_failed_ids. -/
def get_failed_ids (p : ProgressData) : List PyStr :=
  p.failed.map (fun e => e.student_id)

/-- ProgressManager.should_skip: a student already in the completed set
is skipped. -/
def should_skip (p : ProgressData) (student_id : PyStr) : Bool :=
  decide (student_id ∈ get_completed_ids p)

/-- ProgressManager.should_retry: membership in the failed set. -/
def should_retry (p : ProgressData) (student_id : PyStr) : Bool :=
  decide (student_id ∈ get_failed_ids p)

/-- Outcome of grade_single_submission from src/autograde.py: the record
appended to the result collection (none when skipped), the ledger
afterwards, the cache afterwards, the number of LLM requests issued,
whether Grader.grade was invoked at all, and the ledger writes. -/
structure StepResult where
  out : Option GradingRecord
  pm : Option ProgressData
  cache : Cache
  calls : Nat
  invoked : Bool
  writes : List LedgerWrite
deriving Repr, DecidableEq

/-- grade_single_submission from src/autograde.py on its non-raising
path: skip a completed student outright; otherwise mark in progress,
grade with the default options (max_retries 3, retry_delay 5, cache on),
then mark completed or failed according to the record. -/
def grade_single_submission (fp : PyStr → PyStr) (endpoint : Endpoint)
    (now : PyStr) (cache : Cache) (student_id content : PyStr)
    (pm : Option ProgressData) : StepResult :=
  match pm with
  | some p =>
    if should_skip p student_id then
      { out := none, pm := some p, cache := cache, calls := 0,
        invoked := false, writes := [] }
    else
      let s1 := mark_in_progress now student_id p
      let g := grade fp endpoint cache student_id content 3 5 true
      let s2 :=
        if g.record.success then mark_completed now student_id g.record s1.1
        else mark_failed now student_id g.record.comment s1.1
      { out := some g.record, pm := some s2.1, cache := g.cache,
        calls := g.calls, invoked := true, writes := s1.2 ++ s2.2 }
  | none =>
    let g := grade fp endpoint cache student_id content 3 5 true
    { out := some g.record, pm := none, cache := g.cache,
      calls := g.calls, invoked := true, writes := [] }

/-- Outcome of one sequential orchestrator run: the collected records (a
skipped submission contributes nothing), the final ledger and cache, and
the ids for which the grading client was invoked. -/
structure BatchResult where
  results : List GradingRecord
  pm : Option ProgressData
  cache : Cache
  graded_ids : List PyStr
deriving Repr, DecidableEq

/-- The sequential grading loop of main in src/autograde.py: submissions
are pairs of student id and content; each submission index gets its own
endpoint oracle; falsy step outputs are filtered from the collection. -/
def runBatch (fp : PyStr → PyStr) (endpoints : Nat → Endpoint) (now : PyStr) :
    Cache → Option ProgressData → Nat → List (PyStr × PyStr) → BatchResult
  | cache, pm, _, [] => { results := [], pm := pm, cache := cache, graded_ids := [] }
  | cache, pm, idx, (student_id, content) :: rest =>
    let st := grade_single_submission fp (endpoints idx) now cache student_id content pm
    let b := runBatch fp endpoints now st.cache st.pm (idx + 1) rest
    { results := (match st.out with | some r => [r] | none => []) ++ b.results
      pm := b.pm
      cache := b.cache
      graded_ids := (if st.invoked then [student_id] else []) ++ b.graded_ids }

/-! Helper lemmas shared by several claims. -/

/-- Looking up the key just inserted returns the inserted record. -/
theorem Cache.find_insert (c : Cache) (k : PyStr) (v : GradingRecord) :
    Cache.find (Cache.insert c k v) k = some v := by
  simp [Cache.find, Cache.insert]

/-- Every entry of an updated cache is the new pair or an old entry. -/
theorem Cache.mem_insert (c : Cache) (k : PyStr) (v : GradingRecord)
    (e : PyStr × GradingRecord) (h : e ∈ Cache.insert c k v) :
    e = (k, v) ∨ e ∈ c := by
  simp only [Cache.insert, List.mem_cons, List.mem_filter] at h
  rcases h with h | h
  · exact Or.inl h
  · exact Or.inr h.1

/-- A successful lookup returns an entry of the cache. -/
theorem Cache.find_mem (c : Cache) (k : PyStr) (v : GradingRecord)
    (h : Cache.find c k = some v) : ∃ e ∈ c, e.2 = v := by
  simp only [Cache.find, Option.map_eq_some'] at h
  obtain ⟨e, he, rfl⟩ := h
  exact ⟨e, List.mem_of_find?_eq_some he, rfl⟩

/-- The record returned by the retry loop carries the student id it was
given. -/
theorem gradeLoop_student_id (endpoint : Endpoint) (sid uc_k : PyStr)
    (uc : Bool) (c : Cache) (d : Nat) :
    ∀ n a, (gradeLoop endpoint sid uc uc_k c d a n).record.student_id = sid := by
  intro n
  induction n with
  | zero => intro a; rfl
  | succ m ih =>
    intro a
    cases h : endpoint a with
    | ok r => simp [gradeLoop, h, parse_response]; split <;> rfl
    | error e =>
      by_cases hm : m = 0 <;> simp [gradeLoop, h, hm, ih]

/-- The record returned by Grader.grade carries the student id it was
given. -/
theorem grade_student_id (fp : PyStr → PyStr) (endpoint : Endpoint)
    (c : Cache) (sid content : PyStr) (mr d : Nat) (uc : Bool) :
    (grade fp endpoint c sid content mr d uc).record.student_id = sid := by
  unfold grade
  cases uc with
  | false => exact gradeLoop_student_id ..
  | true =>
    cases h : Cache.find c (fp content) with
    | none => simp [h]; exact gradeLoop_student_id ..
    | some r => simp [h]

/-! C1 and C2: the response parser. -/

/-- C1: for every raw reply whose stripped text splits on the dash into
at least three parts with a digit-string second part, the parser returns
success with the score equal to the integer value of that part and the
comment equal to the remaining parts rejoined with dashes, so embedded
dashes in the comment are preserved. -/
theorem C1_parse_success (s student_id : PyStr)
    (h3 : 3 ≤ (pySplit '-' (pyStrip s)).length)
    (hd : pyIsDigit (pySplit '-' (pyStrip s))[1]! = true) :
    parse_response s student_id =
      { student_id := student_id
        score := pyInt (pySplit '-' (pyStrip s))[1]!
        comment := pyJoin '-' ((pySplit '-' (pyStrip s)).drop 2)
        success := true
        raw_response := some (pyStrip s)
        from_cache := false } := by
  simp only [parse_response]
  rw [if_pos ⟨h3, hd⟩]

/-- Witness for C1 at the worked example of the specification. -/
theorem C1_witness :
    (3 ≤ (pySplit '-' (pyStrip "S002-98-代码逻辑清晰".data)).length ∧
      pyIsDigit (pySplit '-' (pyStrip "S002-98-代码逻辑清晰".data))[1]! = true) ∧
    parse_response "S002-98-代码逻辑清晰".data "S002".data =
      { student_id := "S002".data, score := 98, comment := "代码逻辑清晰".data,
        success := true, raw_response := some "S002-98-代码逻辑清晰".data,
        from_cache := false } := by
  refine ⟨by decide, ?_⟩
  rw [C1_parse_success "S002-98-代码逻辑清晰".data "S002".data (by decide) (by decide)]
  decide

/-- C2: for every raw reply failing the shape check the parser returns a
failure record with score zero whose comment embeds the stripped raw
text, and the raw text is also kept in raw_response. -/
theorem C2_parse_failure (s student_id : PyStr)
    (h : ¬ (3 ≤ (pySplit '-' (pyStrip s)).length ∧
        pyIsDigit (pySplit '-' (pyStrip s))[1]! = true)) :
    parse_response s student_id =
      { student_id := student_id
        score := 0
        comment := formatErrPrefix ++ pyStrip s
        success := false
        raw_response := some (pyStrip s)
        from_cache := false } ∧
    (∃ pre, (parse_response s student_id).comment = pre ++ pyStrip s) := by
  have hb : parse_response s student_id =
      { student_id := student_id, score := 0,
        comment := formatErrPrefix ++ pyStrip s, success := false,
        raw_response := some (pyStrip s), from_cache := false } := by
    simp only [parse_response]
    rw [if_neg h]
  exact ⟨hb, formatErrPrefix, by rw [hb]⟩

/-- Witness for C2 at the malformed example of the specification. -/
theorem C2_witness :
    (¬ (3 ≤ (pySplit '-' (pyStrip "S001-abc-comment".data)).length ∧
        pyIsDigit (pySplit '-' (pyStrip "S001-abc-comment".data))[1]! = true)) ∧
    parse_response "S001-abc-comment".data "S001".data =
      { student_id := "S001".data, score := 0,
        comment := formatErrPrefix ++ "S001-abc-comment".data, success := false,
        raw_response := some "S001-abc-comment".data, from_cache := false } := by
  refine ⟨by decide, ?_⟩
  rw [(C2_parse_failure "S001-abc-comment".data "S001".data (by decide)).1]
  decide

/-! C3: cache idempotence of Grader.grade. -/

/-- C3: with caching enabled, grading the same content twice issues at
most one LLM request in total provided the endpoint answers the first
attempt of the first call: the second call issues no request and returns
the record of the first call with only the student id substituted and
from_cache set to true. -/
theorem C3_cache_idempotence (fp : PyStr → PyStr) (e1 e2 : Endpoint)
    (cache : Cache) (sid1 sid2 content : PyStr) (mr d : Nat)
    (hmr : 1 ≤ mr) (hok : ∃ r, e1 0 = Except.ok r) :
    (grade fp e1 cache sid1 content mr d true).calls +
      (grade fp e2 (grade fp e1 cache sid1 content mr d true).cache
        sid2 content mr d true).calls ≤ 1 ∧
    (grade fp e2 (grade fp e1 cache sid1 content mr d true).cache
      sid2 content mr d true).calls = 0 ∧
    (grade fp e2 (grade fp e1 cache sid1 content mr d true).cache
      sid2 content mr d true).record =
      { (grade fp e1 cache sid1 content mr d true).record with
          student_id := sid2, from_cache := true } := by
  obtain ⟨r, hr⟩ := hok
  obtain ⟨k, rfl⟩ : ∃ k, mr = k + 1 := ⟨mr - 1, by omega⟩
  cases hfind : Cache.find cache (fp content) with
  | some rec0 => simp [grade, hfind]
  | none =>
    have hg1 : grade fp e1 cache sid1 content (k + 1) d true =
        { record := parse_response r sid1
          cache := Cache.insert cache (fp content) (parse_response r sid1)
          calls := 1, sleeps := [] } := by
      simp [grade, hfind, gradeLoop, hr]
    rw [hg1]
    simp [grade, Cache.find_insert]

/-- Witness for C3: a concrete first reply, then a dead endpoint for the
second call, which is still answered from the cache with no request. -/
theorem C3_witness :
    (1 ≤ 3 ∧ ∃ r, (fun _ => Except.ok "S001-98-好".data : Endpoint) 0 = Except.ok r) ∧
    ((grade (fun s => s) (fun _ => Except.ok "S001-98-好".data) [] "A".data "x".data 3 5 true).calls +
      (grade (fun s => s) (fun _ => Except.error "down".data)
        (grade (fun s => s) (fun _ => Except.ok "S001-98-好".data) [] "A".data "x".data 3 5 true).cache
        "B".data "x".data 3 5 true).calls ≤ 1 ∧
    (grade (fun s => s) (fun _ => Except.error "down".data)
      (grade (fun s => s) (fun _ => Except.ok "S001-98-好".data) [] "A".data "x".data 3 5 true).cache
      "B".data "x".data 3 5 true).calls = 0 ∧
    (grade (fun s => s) (fun _ => Except.error "down".data)
      (grade (fun s => s) (fun _ => Except.ok "S001-98-好".data) [] "A".data "x".data 3 5 true).cache
      "B".data "x".data 3 5 true).record =
      { (grade (fun s => s) (fun _ => Except.ok "S001-98-好".data) [] "A".data "x".data 3 5 true).record with
          student_id := "B".data, from_cache := true }) :=
  ⟨⟨by decide, ⟨"S001-98-好".data, rfl⟩⟩,
    C3_cache_idempotence (fun s => s) (fun _ => Except.ok "S001-98-好".data)
      (fun _ => Except.error "down".data) [] "A".data "B".data "x".data 3 5
      (by decide) ⟨"S001-98-好".data, rfl⟩⟩

/-! C4: retry exhaustion of Grader.grade. -/

/-- C4: with max_retries three and an endpoint raising on every attempt,
grade returns a single failure record embedding the final error text,
issues exactly three requests, sleeps the fixed retry delay between
consecutive attempts, leaves the cache unchanged, and raises nothing
(it returns a record on every path by construction). -/
theorem C4_retry_exhaustion (fp : PyStr → PyStr) (endpoint : Endpoint)
    (cache : Cache) (sid content : PyStr) (d : Nat) (uc : Bool)
    (e0 e1 e2 : PyStr)
    (h0 : endpoint 0 = Except.error e0) (h1 : endpoint 1 = Except.error e1)
    (h2 : endpoint 2 = Except.error e2)
    (hmiss : Cache.find cache (fp content) = none) :
    grade fp endpoint cache sid content 3 d uc =
      { record := { student_id := sid, score := 0,
                    comment := apiFailPrefix ++ e2, success := false,
                    raw_response := none, from_cache := false }
        cache := cache, calls := 3, sleeps := [d, d] } := by
  have l1 : gradeLoop endpoint sid uc (fp content) cache d 2 1 =
      { record := { student_id := sid, score := 0,
                    comment := apiFailPrefix ++ e2, success := false }
        cache := cache, calls := 1, sleeps := [] } := by
    show gradeLoop endpoint sid uc (fp content) cache d 2 (0 + 1) = _
    simp only [gradeLoop]
    rw [h2]
    simp
  have l2 : gradeLoop endpoint sid uc (fp content) cache d 1 2 =
      { record := { student_id := sid, score := 0,
                    comment := apiFailPrefix ++ e2, success := false }
        cache := cache, calls := 2, sleeps := [d] } := by
    rw [show (2 : Nat) = 1 + 1 from rfl, gradeLoop, h1]
    simp [l1]
  have l3 : gradeLoop endpoint sid uc (fp content) cache d 0 3 =
      { record := { student_id := sid, score := 0,
                    comment := apiFailPrefix ++ e2, success := false }
        cache := cache, calls := 3, sleeps := [d, d] } := by
    rw [show (3 : Nat) = 2 + 1 from rfl, gradeLoop, h0]
    simp [l2]
  cases uc <;> simp [grade, hmiss, l3]

/-- Witness for C4 against an endpoint that always raises. -/
theorem C4_witness :
    ((fun _ => Except.error "boom".data : Endpoint) 0 = Except.error "boom".data) ∧
    Cache.find [] ((fun s : PyStr => s) "x".data) = none ∧
    grade (fun s => s) (fun _ => Except.error "boom".data) [] "A".data "x".data 3 7 true =
      { record := { student_id := "A".data, score := 0,
                    comment := apiFailPrefix ++ "boom".data, success := false,
                    raw_response := none, from_cache := false }
        cache := [], calls := 3, sleeps := [7, 7] } :=
  ⟨rfl, rfl,
    C4_retry_exhaustion (fun s => s) (fun _ => Except.error "boom".data) []
      "A".data "x".data 7 true "boom".data "boom".data "boom".data rfl rfl rfl rfl⟩

/-! C10: the no-cache mode never reads or writes the cache. -/

/-- With caching disabled the retry loop leaves the cache untouched and
its record and request count do not depend on the cache contents. -/
theorem gradeLoop_no_cache (endpoint : Endpoint) (sid k : PyStr) (d : Nat) :
    ∀ n a (c c' : Cache),
      (gradeLoop endpoint sid false k c d a n).cache = c ∧
      (gradeLoop endpoint sid false k c d a n).record =
        (gradeLoop endpoint sid false k c' d a n).record ∧
      (gradeLoop endpoint sid false k c d a n).calls =
        (gradeLoop endpoint sid false k c' d a n).calls := by
  intro n
  induction n with
  | zero => intro a c c'; exact ⟨rfl, rfl, rfl⟩
  | succ m ih =>
    intro a c c'
    cases h : endpoint a with
    | ok r => simp [gradeLoop, h]
    | error e =>
      by_cases hm : m = 0
      · simp [gradeLoop, h, hm]
      · obtain ⟨hc, hr, hn⟩ := ih (a + 1) c c'
        simp [gradeLoop, h, hm, hc, hr, hn]

/-- The retry loop with at least one attempt issues at least one
request. -/
theorem gradeLoop_calls_pos (endpoint : Endpoint) (sid k : PyStr)
    (uc : Bool) (c : Cache) (d m a : Nat) :
    1 ≤ (gradeLoop endpoint sid uc k c d a (m + 1)).calls := by
  cases h : endpoint a with
  | ok r => simp [gradeLoop, h]
  | error e =>
    by_cases hm : m = 0
    · simp [gradeLoop, h, hm]
    · simp [gradeLoop, h, hm]

/-- The parser never sets from_cache. -/
theorem parse_response_from_cache (s sid : PyStr) :
    (parse_response s sid).from_cache = false := by
  simp only [parse_response]
  split <;> rfl

/-- The retry loop never sets from_cache on the record it returns. -/
theorem gradeLoop_from_cache (endpoint : Endpoint) (sid k : PyStr)
    (uc : Bool) (c : Cache) (d : Nat) :
    ∀ n a, (gradeLoop endpoint sid uc k c d a n).record.from_cache = false := by
  intro n
  induction n with
  | zero => intro a; rfl
  | succ m ih =>
    intro a
    cases h : endpoint a with
    | ok r => simp [gradeLoop, h, parse_response_from_cache]
    | error e => by_cases hm : m = 0 <;> simp [gradeLoop, h, hm, ih]

/-- C10: a grade call with use_cache false leaves the cache exactly as
it was, issues at least one fresh request, returns a record whose
from_cache flag is false, and behaves identically whatever the cache
holds, so the cache is never consulted even when it has an entry for the
fingerprint of the content. -/
theorem C10_no_cache_frame (fp : PyStr → PyStr) (endpoint : Endpoint)
    (cache cache' : Cache) (sid content : PyStr) (mr d : Nat)
    (hmr : 1 ≤ mr) :
    (grade fp endpoint cache sid content mr d false).cache = cache ∧
    1 ≤ (grade fp endpoint cache sid content mr d false).calls ∧
    (grade fp endpoint cache sid content mr d false).record.from_cache = false ∧
    (grade fp endpoint cache sid content mr d false).record =
      (grade fp endpoint cache' sid content mr d false).record ∧
    (grade fp endpoint cache sid content mr d false).calls =
      (grade fp endpoint cache' sid content mr d false).calls := by
  obtain ⟨k, rfl⟩ : ∃ k, mr = k + 1 := ⟨mr - 1, by omega⟩
  have hgr : grade fp endpoint cache sid content (k + 1) d false =
      gradeLoop endpoint sid false (fp content) cache d 0 (k + 1) := by
    simp [grade]
  have hgr' : grade fp endpoint cache' sid content (k + 1) d false =
      gradeLoop endpoint sid false (fp content) cache' d 0 (k + 1) := by
    simp [grade]
  obtain ⟨hc, hr, hn⟩ := gradeLoop_no_cache endpoint sid (fp content) d (k + 1) 0 cache cache'
  rw [hgr, hgr']
  exact ⟨hc, gradeLoop_calls_pos .., gradeLoop_from_cache .., hr, hn⟩

/-- Witness for C10: the cache holds an entry for the very fingerprint
of the submission, and the call still ignores it. -/
theorem C10_witness :
    1 ≤ 3 ∧
    ((grade (fun s => s) (fun _ => Except.ok "S001-98-好".data)
        [("x".data, { student_id := "Z".data, score := 100, comment := "old".data,
                      success := true })]
        "A".data "x".data 3 5 false).cache =
      [("x".data, { student_id := "Z".data, score := 100, comment := "old".data,
                    success := true })] ∧
    1 ≤ (grade (fun s => s) (fun _ => Except.ok "S001-98-好".data)
        [("x".data, { student_id := "Z".data, score := 100, comment := "old".data,
                      success := true })]
        "A".data "x".data 3 5 false).calls ∧
    (grade (fun s => s) (fun _ => Except.ok "S001-98-好".data)
        [("x".data, { student_id := "Z".data, score := 100, comment := "old".data,
                      success := true })]
        "A".data "x".data 3 5 false).record.from_cache = false ∧
    (grade (fun s => s) (fun _ => Except.ok "S001-98-好".data)
        [("x".data, { student_id := "Z".data, score := 100, comment := "old".data,
                      success := true })]
        "A".data "x".data 3 5 false).record =
      (grade (fun s => s) (fun _ => Except.ok "S001-98-好".data) []
        "A".data "x".data 3 5 false).record ∧
    (grade (fun s => s) (fun _ => Except.ok "S001-98-好".data)
        [("x".data, { student_id := "Z".data, score := 100, comment := "old".data,
                      success := true })]
        "A".data "x".data 3 5 false).calls =
      (grade (fun s => s) (fun _ => Except.ok "S001-98-好".data) []
        "A".data "x".data 3 5 false).calls) :=
  ⟨by decide,
    C10_no_cache_frame (fun s => s) (fun _ => Except.ok "S001-98-好".data)
      [("x".data, { student_id := "Z".data, score := 100, comment := "old".data,
                    success := true })] []
      "A".data "x".data 3 5 (by decide)⟩

/-! C6: reset_failed clears exactly the failed set. -/

/-- C6: reset_failed empties exactly the failed sequence; the completed
sequence, the in_progress marker, the session id and the statistics are
unchanged (only the last-write timestamp is restamped); skipping is
unaffected, no student is retried afterwards, and a student who was not
completed is not skipped afterwards while every completed student still
is. -/
theorem C6_reset_failed_frame (now : PyStr) (p : ProgressData) :
    (reset_failed now p).1.failed = [] ∧
    (reset_failed now p).1.completed = p.completed ∧
    (reset_failed now p).1.in_progress = p.in_progress ∧
    (reset_failed now p).1.session_id = p.session_id ∧
    (reset_failed now p).1.statistics = p.statistics ∧
    (∀ s, should_skip (reset_failed now p).1 s = should_skip p s) ∧
    (∀ s, should_retry (reset_failed now p).1 s = false) ∧
    (∀ s, s ∉ get_completed_ids p → should_skip (reset_failed now p).1 s = false) := by
  refine ⟨rfl, rfl, rfl, rfl, rfl, fun s => rfl, fun s => ?_, fun s hs => ?_⟩
  · simp [should_retry, get_failed_ids, reset_failed, save_progress]
  · exact decide_eq_false hs

/-- Witness for C6: a ledger with student A completed and student B
failed; after reset_failed, B is neither skipped nor retried while A is
still skipped. -/
theorem C6_witness :
    ("B".data ∉ get_completed_ids
      { completed := [{ student_id := "A".data, score := 98,
                        comment := "ok".data, timestamp := "t0".data }]
        failed := [{ student_id := "B".data, error := "boom".data,
                     timestamp := "t0".data }]
        in_progress := none, timestamp := none, session_id := none,
        statistics := [] }) ∧
    should_skip (reset_failed "t1".data
      { completed := [{ student_id := "A".data, score := 98,
                        comment := "ok".data, timestamp := "t0".data }]
        failed := [{ student_id := "B".data, error := "boom".data,
                     timestamp := "t0".data }]
        in_progress := none, timestamp := none, session_id := none,
        statistics := [] }).1 "B".data = false :=
  ⟨by decide,
    (C6_reset_failed_frame "t1".data
      { completed := [{ student_id := "A".data, score := 98,
                        comment := "ok".data, timestamp := "t0".data }]
        failed := [{ student_id := "B".data, error := "boom".data,
                     timestamp := "t0".data }]
        in_progress := none, timestamp := none, session_id := none,
        statistics := [] }).2.2.2.2.2.2.2 "B".data (by decide)⟩

/-! C7: the record invariant claimed for every produced record. -/

/-- C7 claims that a successful record always scores inside the fixed
rubric set with a non-empty comment; the counterexample below runs the
grading client on a well-shaped reply carrying a score outside the set
and an empty comment, which it accepts verbatim. -/
theorem C7_counterexample :
    ((grade (fun s => s) (fun _ => Except.ok "S001-50-".data) []
        "S001".data "print(1)".data 3 5 true).record.success = true) ∧
    (grade (fun s => s) (fun _ => Except.ok "S001-50-".data) []
        "S001".data "print(1)".data 3 5 true).record.score = 50 ∧
    (grade (fun s => s) (fun _ => Except.ok "S001-50-".data) []
        "S001".data "print(1)".data 3 5 true).record.comment = [] ∧
    (grade (fun s => s) (fun _ => Except.ok "S001-50-".data) []
        "S001".data "print(1)".data 3 5 true).record.score ∉
      ([100, 98, 97, 96, 95, 92, 90] : List Nat) := by
  decide

/-- The half of the claimed invariant that the code does maintain: a
failure record scores zero and carries a non-empty failure comment. -/
def failInv (r : GradingRecord) : Prop :=
  r.success = false → r.score = 0 ∧ r.comment ≠ []

/-- A list with a non-empty left part is non-empty. -/
theorem append_left_ne_nil {pre x : PyStr} (h : pre ≠ []) : pre ++ x ≠ [] := by
  cases pre
  · exact absurd rfl h
  · simp

/-- The parser maintains the failure invariant. -/
theorem parse_response_failInv (s sid : PyStr) : failInv (parse_response s sid) := by
  intro h
  by_cases hcond : 3 ≤ (pySplit '-' (pyStrip s)).length ∧
      pyIsDigit (pySplit '-' (pyStrip s))[1]! = true
  · exfalso
    simp only [parse_response] at h
    rw [if_pos hcond] at h
    simp at h
  · have hb : parse_response s sid =
        { student_id := sid, score := 0,
          comment := formatErrPrefix ++ pyStrip s, success := false,
          raw_response := some (pyStrip s), from_cache := false } := by
      simp only [parse_response]
      rw [if_neg hcond]
    rw [hb]
    exact ⟨rfl, append_left_ne_nil (by decide)⟩

/-- The retry loop maintains the failure invariant on its record and on
every cache entry. -/
theorem gradeLoop_failInv (endpoint : Endpoint) (sid k : PyStr)
    (uc : Bool) (d : Nat) :
    ∀ n a (c : Cache), (∀ e ∈ c, failInv e.2) →
      failInv (gradeLoop endpoint sid uc k c d a n).record ∧
      (∀ e ∈ (gradeLoop endpoint sid uc k c d a n).cache, failInv e.2) := by
  intro n
  induction n with
  | zero =>
    intro a c hc
    exact ⟨fun _ => ⟨rfl, (by decide : exhaustedMsg ≠ [])⟩, hc⟩
  | succ m ih =>
    intro a c hc
    cases h : endpoint a with
    | ok r =>
      have hstep : gradeLoop endpoint sid uc k c d a (m + 1) =
          { record := parse_response r sid
            cache := if uc = true then Cache.insert c k (parse_response r sid) else c
            calls := 1, sleeps := [] } := by
        rw [gradeLoop, h]
      rw [hstep]
      refine ⟨parse_response_failInv r sid, ?_⟩
      cases uc with
      | false => exact hc
      | true =>
        intro e he
        rcases Cache.mem_insert c k (parse_response r sid) e he with rfl | hmem
        · exact parse_response_failInv r sid
        · exact hc e hmem
    | error e =>
      by_cases hm : m = 0
      · subst hm
        have hstep : gradeLoop endpoint sid uc k c d a (0 + 1) =
            { record := { student_id := sid, score := 0,
                          comment := apiFailPrefix ++ e, success := false }
              cache := c, calls := 1, sleeps := [] } := by
          rw [gradeLoop, h]
          rfl
        rw [hstep]
        exact ⟨fun _ => ⟨rfl, append_left_ne_nil (by decide)⟩, hc⟩
      · obtain ⟨m', rfl⟩ : ∃ m', m = m' + 1 := ⟨m - 1, by omega⟩
        have hstep : gradeLoop endpoint sid uc k c d a (m' + 1 + 1) =
            { record := (gradeLoop endpoint sid uc k c d (a + 1) (m' + 1)).record
              cache := (gradeLoop endpoint sid uc k c d (a + 1) (m' + 1)).cache
              calls := (gradeLoop endpoint sid uc k c d (a + 1) (m' + 1)).calls + 1
              sleeps := d :: (gradeLoop endpoint sid uc k c d (a + 1) (m' + 1)).sleeps } := by
          rw [gradeLoop, h]
          rfl
        rw [hstep]
        obtain ⟨hr, hcc⟩ := ih (a + 1) c hc
        exact ⟨hr, hcc⟩

/-- C7 amended: on every path of the grading client (fresh parse, cache
hit, retry exhaustion), a record with success false scores zero and
carries a non-empty failure comment, and this invariant also holds for
every record stored in the cache afterwards; a record with success true
merely carries the integer of the second reply field (the allowed score
set is never checked and the comment may be empty, as the
counterexample shows). -/
theorem C7_amended_invariant (fp : PyStr → PyStr) (endpoint : Endpoint)
    (cache : Cache) (sid content : PyStr) (mr d : Nat) (uc : Bool)
    (hc : ∀ e ∈ cache, failInv e.2) :
    failInv (grade fp endpoint cache sid content mr d uc).record ∧
    (∀ e ∈ (grade fp endpoint cache sid content mr d uc).cache, failInv e.2) ∧
    (∀ s sid2, (parse_response s sid2).success = true →
      (parse_response s sid2).score = pyInt (pySplit '-' (pyStrip s))[1]!) := by
  have hmain : failInv (grade fp endpoint cache sid content mr d uc).record ∧
      (∀ e ∈ (grade fp endpoint cache sid content mr d uc).cache, failInv e.2) := by
    cases uc with
    | false => exact gradeLoop_failInv endpoint sid (fp content) false d mr 0 cache hc
    | true =>
      cases hfind : Cache.find cache (fp content) with
      | none =>
        have hstep : grade fp endpoint cache sid content mr d true =
            gradeLoop endpoint sid true (fp content) cache d 0 mr := by
          simp only [grade]
          rw [hfind]
          rfl
        rw [hstep]
        exact gradeLoop_failInv endpoint sid (fp content) true d mr 0 cache hc
      | some r =>
        have hstep : grade fp endpoint cache sid content mr d true =
            { record := { r with student_id := sid, from_cache := true }
              cache := cache, calls := 0, sleeps := [] } := by
          simp only [grade]
          rw [hfind]
          rfl
        rw [hstep]
        obtain ⟨e, he, hev⟩ := Cache.find_mem cache (fp content) r hfind
        refine ⟨fun hf => ?_, hc⟩
        have := hc e he
        rw [hev] at this
        exact this hf
  refine ⟨hmain.1, hmain.2, ?_⟩
  intro s sid2 hs
  by_cases hcond : 3 ≤ (pySplit '-' (pyStrip s)).length ∧
      pyIsDigit (pySplit '-' (pyStrip s))[1]! = true
  · simp only [parse_response]
    rw [if_pos hcond]
  · exfalso
    simp only [parse_response] at hs
    rw [if_neg hcond] at hs
    simp at hs

/-- Witness for C7 amended, starting from the empty cache with a failing
endpoint. -/
theorem C7_amended_witness :
    (∀ e ∈ ([] : Cache), failInv e.2) ∧
    failInv (grade (fun s => s) (fun _ => Except.error "boom".data) []
      "A".data "x".data 3 5 true).record :=
  ⟨by simp,
    (C7_amended_invariant (fun s => s) (fun _ => Except.error "boom".data) []
      "A".data "x".data 3 5 true (by simp)).1⟩

/-! C9: how the ledger file is written. -/

/-- C9 claims the ledger file write goes through a temporary file and an
atomic rename; in the source every mutating call opens the progress file
itself in truncating write mode, so the trace of a concrete
mark_completed call is a single in-place write and contains no rename. -/
theorem C9_counterexample :
    (mark_completed "t1".data "A".data
        { student_id := "A".data, score := 98, comment := "ok".data,
          success := true } init_progress).2 =
      [LedgerWrite.writeInPlace
        (mark_completed "t1".data "A".data
          { student_id := "A".data, score := 98, comment := "ok".data,
            success := true } init_progress).1] ∧
    ((mark_completed "t1".data "A".data
        { student_id := "A".data, score := 98, comment := "ok".data,
          success := true } init_progress).2.all
      (fun w => !w.isAtomicRename)) = true := by
  decide

/-- C9 amended: every mutating ledger call performs exactly one
synchronous whole-file rewrite of the complete new state before
returning, but it is an in-place truncating write of the target path,
not a temporary-file-then-atomic-rename sequence. -/
theorem C9_amended_writes (now sid err : PyStr) (r : GradingRecord)
    (p : ProgressData) :
    (mark_completed now sid r p).2 =
      [LedgerWrite.writeInPlace (mark_completed now sid r p).1] ∧
    (mark_failed now sid err p).2 =
      [LedgerWrite.writeInPlace (mark_failed now sid err p).1] ∧
    (mark_in_progress now sid p).2 =
      [LedgerWrite.writeInPlace (mark_in_progress now sid p).1] ∧
    (reset_failed now p).2 =
      [LedgerWrite.writeInPlace (reset_failed now p).1] ∧
    (reset now p).2 =
      [LedgerWrite.writeInPlace (reset now p).1] ∧
    (∀ q : ProgressData, (LedgerWrite.writeInPlace q).isAtomicRename = false) :=
  ⟨rfl, rfl, rfl, rfl, rfl, fun _ => rfl⟩

/-! C5: resumability of the batch orchestrator. -/

/-- Marking a student in progress does not change who is skipped. -/
theorem should_skip_mark_in_progress (now sid A : PyStr) (p : ProgressData) :
    should_skip (mark_in_progress now sid p).1 A = should_skip p A := rfl

/-- Marking a student failed does not change who is skipped. -/
theorem should_skip_mark_failed (now sid err A : PyStr) (p : ProgressData) :
    should_skip (mark_failed now sid err p).1 A = should_skip p A := rfl

/-- The completed sequence after mark_completed is the old one extended
by the new entry. -/
theorem completed_mark_completed (now sid : PyStr) (r : GradingRecord) (p : ProgressData) :
    (mark_completed now sid r p).1.completed =
      p.completed ++ [{ student_id := sid, score := r.score,
                        comment := r.comment, timestamp := now }] := rfl

/-- A student already skipped stays skipped after any mark_completed. -/
theorem should_skip_mark_completed (now sid A : PyStr) (r : GradingRecord)
    (p : ProgressData) (h : should_skip p A = true) :
    should_skip (mark_completed now sid r p).1 A = true := by
  have hmem : A ∈ get_completed_ids p := of_decide_eq_true h
  apply decide_eq_true
  show A ∈ get_completed_ids (mark_completed now sid r p).1
  unfold get_completed_ids
  rw [completed_mark_completed, List.map_append]
  exact List.mem_append_left _ hmem

/-- C5: when the ledger already lists student A as completed, a
sequential orchestrator run over any submission set never invokes the
grading client for A, emits no record for A in the output collection,
and ends with a ledger that still lists A as completed, so the same
holds for every subsequent run until an explicit reset. -/
theorem C5_resume_skips_completed (fp : PyStr → PyStr)
    (endpoints : Nat → Endpoint) (now A : PyStr) :
    ∀ (subs : List (PyStr × PyStr)) (cache : Cache) (p : ProgressData) (idx : Nat),
      should_skip p A = true →
      A ∉ (runBatch fp endpoints now cache (some p) idx subs).graded_ids ∧
      (∀ r ∈ (runBatch fp endpoints now cache (some p) idx subs).results,
        r.student_id ≠ A) ∧
      (∃ p', (runBatch fp endpoints now cache (some p) idx subs).pm = some p' ∧
        should_skip p' A = true) := by
  intro subs
  induction subs with
  | nil =>
    intro cache p idx h
    exact ⟨List.not_mem_nil A, by intro r hr; exact absurd hr (List.not_mem_nil r),
      p, rfl, h⟩
  | cons hd rest ih =>
    obtain ⟨sid, content⟩ := hd
    intro cache p idx h
    by_cases hs : should_skip p sid = true
    · have hst : grade_single_submission fp (endpoints idx) now cache sid content (some p) =
          { out := none, pm := some p, cache := cache, calls := 0,
            invoked := false, writes := [] } := by
        simp only [grade_single_submission]
        rw [if_pos hs]
      have hrb : runBatch fp endpoints now cache (some p) idx ((sid, content) :: rest) =
          runBatch fp endpoints now cache (some p) (idx + 1) rest := by
        simp only [runBatch]
        rw [hst]
        rfl
      rw [hrb]
      exact ih cache p (idx + 1) h
    · have hne : sid ≠ A := fun he => hs (he ▸ h)
      have hq : should_skip (mark_in_progress now sid p).1 A = true := h
      cases hsucc : (grade fp (endpoints idx) cache sid content 3 5 true).record.success with
      | true =>
        have hst : grade_single_submission fp (endpoints idx) now cache sid content (some p) =
            { out := some (grade fp (endpoints idx) cache sid content 3 5 true).record
              pm := some (mark_completed now sid
                (grade fp (endpoints idx) cache sid content 3 5 true).record
                (mark_in_progress now sid p).1).1
              cache := (grade fp (endpoints idx) cache sid content 3 5 true).cache
              calls := (grade fp (endpoints idx) cache sid content 3 5 true).calls
              invoked := true
              writes := (mark_in_progress now sid p).2 ++
                (mark_completed now sid
                  (grade fp (endpoints idx) cache sid content 3 5 true).record
                  (mark_in_progress now sid p).1).2 } := by
          simp only [grade_single_submission]
          rw [if_neg hs, if_pos hsucc]
        have hp2 : should_skip (mark_completed now sid
            (grade fp (endpoints idx) cache sid content 3 5 true).record
            (mark_in_progress now sid p).1).1 A = true :=
          should_skip_mark_completed now sid A _ _ hq
        have hrb : runBatch fp endpoints now cache (some p) idx ((sid, content) :: rest) =
            { results := (grade fp (endpoints idx) cache sid content 3 5 true).record ::
                (runBatch fp endpoints now
                  (grade fp (endpoints idx) cache sid content 3 5 true).cache
                  (some (mark_completed now sid
                    (grade fp (endpoints idx) cache sid content 3 5 true).record
                    (mark_in_progress now sid p).1).1) (idx + 1) rest).results
              pm := (runBatch fp endpoints now
                  (grade fp (endpoints idx) cache sid content 3 5 true).cache
                  (some (mark_completed now sid
                    (grade fp (endpoints idx) cache sid content 3 5 true).record
                    (mark_in_progress now sid p).1).1) (idx + 1) rest).pm
              cache := (runBatch fp endpoints now
                  (grade fp (endpoints idx) cache sid content 3 5 true).cache
                  (some (mark_completed now sid
                    (grade fp (endpoints idx) cache sid content 3 5 true).record
                    (mark_in_progress now sid p).1).1) (idx + 1) rest).cache
              graded_ids := sid :: (runBatch fp endpoints now
                  (grade fp (endpoints idx) cache sid content 3 5 true).cache
                  (some (mark_completed now sid
                    (grade fp (endpoints idx) cache sid content 3 5 true).record
                    (mark_in_progress now sid p).1).1) (idx + 1) rest).graded_ids } := by
          simp only [runBatch]
          rw [hst]
          rfl
        obtain ⟨hg, hr, hp⟩ := ih (grade fp (endpoints idx) cache sid content 3 5 true).cache
          (mark_completed now sid
            (grade fp (endpoints idx) cache sid content 3 5 true).record
            (mark_in_progress now sid p).1).1 (idx + 1) hp2
        rw [hrb]
        refine ⟨?_, ?_, hp⟩
        · intro hmem
          rcases List.mem_cons.mp hmem with rfl | hmem2
          · exact hne rfl
          · exact hg hmem2
        · intro r hrm
          rcases List.mem_cons.mp hrm with rfl | hmem2
          · rw [grade_student_id]
            exact hne
          · exact hr r hmem2
      | false =>
        have hst : grade_single_submission fp (endpoints idx) now cache sid content (some p) =
            { out := some (grade fp (endpoints idx) cache sid content 3 5 true).record
              pm := some (mark_failed now sid
                (grade fp (endpoints idx) cache sid content 3 5 true).record.comment
                (mark_in_progress now sid p).1).1
              cache := (grade fp (endpoints idx) cache sid content 3 5 true).cache
              calls := (grade fp (endpoints idx) cache sid content 3 5 true).calls
              invoked := true
              writes := (mark_in_progress now sid p).2 ++
                (mark_failed now sid
                  (grade fp (endpoints idx) cache sid content 3 5 true).record.comment
                  (mark_in_progress now sid p).1).2 } := by
          simp only [grade_single_submission]
          rw [if_neg hs, if_neg (by rw [hsucc]; exact Bool.false_ne_true)]
        have hp2 : should_skip (mark_failed now sid
            (grade fp (endpoints idx) cache sid content 3 5 true).record.comment
            (mark_in_progress now sid p).1).1 A = true := by
          rw [should_skip_mark_failed]
          exact hq
        have hrb : runBatch fp endpoints now cache (some p) idx ((sid, content) :: rest) =
            { results := (grade fp (endpoints idx) cache sid content 3 5 true).record ::
                (runBatch fp endpoints now
                  (grade fp (endpoints idx) cache sid content 3 5 true).cache
                  (some (mark_failed now sid
                    (grade fp (endpoints idx) cache sid content 3 5 true).record.comment
                    (mark_in_progress now sid p).1).1) (idx + 1) rest).results
              pm := (runBatch fp endpoints now
                  (grade fp (endpoints idx) cache sid content 3 5 true).cache
                  (some (mark_failed now sid
                    (grade fp (endpoints idx) cache sid content 3 5 true).record.comment
                    (mark_in_progress now sid p).1).1) (idx + 1) rest).pm
              cache := (runBatch fp endpoints now
                  (grade fp (endpoints idx) cache sid content 3 5 true).cache
                  (some (mark_failed now sid
                    (grade fp (endpoints idx) cache sid content 3 5 true).record.comment
                    (mark_in_progress now sid p).1).1) (idx + 1) rest).cache
              graded_ids := sid :: (runBatch fp endpoints now
                  (grade fp (endpoints idx) cache sid content 3 5 true).cache
                  (some (mark_failed now sid
                    (grade fp (endpoints idx) cache sid content 3 5 true).record.comment
                    (mark_in_progress now sid p).1).1) (idx + 1) rest).graded_ids } := by
          simp only [runBatch]
          rw [hst]
          rfl
        obtain ⟨hg, hr, hp⟩ := ih (grade fp (endpoints idx) cache sid content 3 5 true).cache
          (mark_failed now sid
            (grade fp (endpoints idx) cache sid content 3 5 true).record.comment
            (mark_in_progress now sid p).1).1 (idx + 1) hp2
        rw [hrb]
        refine ⟨?_, ?_, hp⟩
        · intro hmem
          rcases List.mem_cons.mp hmem with rfl | hmem2
          · exact hne rfl
          · exact hg hmem2
        · intro r hrm
          rcases List.mem_cons.mp hrm with rfl | hmem2
          · rw [grade_student_id]
            exact hne
          · exact hr r hmem2

/-- Witness for C5: student A already completed in the ledger, a run
over a set containing A and B. -/
theorem C5_witness :
    should_skip
      { completed := [{ student_id := "A".data, score := 98,
                        comment := "ok".data, timestamp := "t0".data }]
        failed := [], in_progress := none, timestamp := none,
        session_id := none, statistics := [] } "A".data = true ∧
    ("A".data ∉ (runBatch (fun s => s) (fun _ _ => Except.ok "S001-98-好".data)
        "t1".data [] (some
          { completed := [{ student_id := "A".data, score := 98,
                            comment := "ok".data, timestamp := "t0".data }]
            failed := [], in_progress := none, timestamp := none,
            session_id := none, statistics := [] }) 0
        [("A".data, "x".data), ("B".data, "y".data)]).graded_ids ∧
      (∀ r ∈ (runBatch (fun s => s) (fun _ _ => Except.ok "S001-98-好".data)
        "t1".data [] (some
          { completed := [{ student_id := "A".data, score := 98,
                            comment := "ok".data, timestamp := "t0".data }]
            failed := [], in_progress := none, timestamp := none,
            session_id := none, statistics := [] }) 0
        [("A".data, "x".data), ("B".data, "y".data)]).results,
        r.student_id ≠ "A".data) ∧
      (∃ p', (runBatch (fun s => s) (fun _ _ => Except.ok "S001-98-好".data)
        "t1".data [] (some
          { completed := [{ student_id := "A".data, score := 98,
                            comment := "ok".data, timestamp := "t0".data }]
            failed := [], in_progress := none, timestamp := none,
            session_id := none, statistics := [] }) 0
        [("A".data, "x".data), ("B".data, "y".data)]).pm = some p' ∧
        should_skip p' "A".data = true)) :=
  ⟨by decide,
    C5_resume_skips_completed (fun s => s) (fun _ _ => Except.ok "S001-98-好".data)
      "t1".data "A".data [("A".data, "x".data), ("B".data, "y".data)] []
      { completed := [{ student_id := "A".data, score := 98,
                        comment := "ok".data, timestamp := "t0".data }]
        failed := [], in_progress := none, timestamp := none,
        session_id := none, statistics := [] } 0 (by decide)⟩

end AutoGrade
